import Mathlib

/-!
Shallow embedding of the car-request Telegram bot
(`zabugorn_bot_project/ZABUGORN.py`) and proofs about the claims of its
natural-language specification.

The Python handlers are embedded as pure Lean functions: the aiogram FSM
context becomes an explicit `Session` value, the sqlite database becomes a
`DB` value (a list of `Request` rows plus the AUTOINCREMENT counter), and
every outbound side effect (reply, send, callback answer, message edit,
warning log) becomes an element of the `Out` inductive type collected in a
list.  External fallible calls (the spreadsheet append, per-admin sends,
the sqlite insert) are parametrised by their outcome so that both the
success and the failure path of each handler can be examined.
-/

namespace Zabugorn

/-! ## String helpers (embeddings of the Python `str` operations used) -/

/-- Python `str.strip()` on the character list: drop leading and trailing
whitespace. -/
def trimChars (l : List Char) : List Char :=
  ((l.dropWhile Char.isWhitespace).reverse.dropWhile Char.isWhitespace).reverse

/-- Python `p.strip()`. -/
def pyStrip (s : String) : String := String.mk (trimChars s.data)

/-- Python `re.sub(r"\D", "", p)`: keep only the digit characters. -/
def digitsOf (s : String) : List Char := s.data.filter Char.isDigit

/-- `l` begins with the character `c` (Python `str.startswith` for a
one-character needle). -/
def headIs (c : Char) : List Char → Bool
  | d :: _ => d = c
  | [] => false

/-- Python `str.split()`: maximal runs of non-whitespace characters.  The
accumulator holds the current token reversed. -/
def splitAux : List Char → List Char → List String
  | [], acc => if acc.isEmpty then [] else [String.mk acc.reverse]
  | c :: rest, acc =>
    if c.isWhitespace then
      if acc.isEmpty then splitAux rest []
      else String.mk acc.reverse :: splitAux rest []
    else splitAux rest (c :: acc)

/-- Python `text.split()` (split on whitespace, no empty tokens); the
source additionally filters empty tokens, which `split()` already
guarantees. -/
def pySplit (s : String) : List String := splitAux s.data []

/-- `PHONE_RE = re.compile(r"^\+7\d{10}$")`. -/
def phoneReMatch (s : String) : Bool :=
  match s.data with
  | '+' :: '7' :: rest => rest.length = 10 && rest.all Char.isDigit
  | _ => false

/-- Membership in the character class `[А-Яа-яЁё]` of `NAME_RE`
(`А`–`я` is the contiguous block U+0410–U+044F; `Ё` is U+0401 and `ё` is
U+0451). -/
def isCyrillicChar (c : Char) : Bool :=
  (0x410 ≤ c.toNat && c.toNat ≤ 0x44F) || c.toNat = 0x401 || c.toNat = 0x451

/-- `NAME_RE = re.compile(r"^[А-Яа-яЁё\-\s]+$")`. -/
def nameReMatch (s : String) : Bool :=
  !s.data.isEmpty && s.data.all (fun c => isCyrillicChar c || c = '-' || c.isWhitespace)

/-- Python `message.text or "-"` (both `None` and the empty string are
falsy). -/
def orDash : Option String → String
  | none => "-"
  | some t => if t = "" then "-" else t

/-! ## Phone normalization (`normalize_phone`) -/

/-- Embedding of `normalize_phone`.  `auto8` is the
`AUTO_CONVERT_8_TO_7` configuration flag; the `Option` input reflects the
`Optional[str]` parameter, and `none` as well as the empty string hit the
initial `if not p` guard. -/
def normalize_phone (auto8 : Bool) (p? : Option String) : String :=
  match p? with
  | none => "-"
  | some p0 =>
    if p0 = "" then "-"
    else
      let p := pyStrip p0
      let digits := digitsOf p
      if headIs '+' p.data = true then
        if digits = [] then "-" else "+" ++ String.mk digits
      else if digits = [] then "-"
      else if auto8 = true ∧ headIs '8' digits = true ∧ 10 ≤ digits.length then
        "+7" ++ String.mk (digits.drop 1)
      else "+" ++ String.mk digits

/-! ## FSM states, session store and outbound effects -/

/-- The states of the `Form` `StatesGroup`, in declaration order (the
`priority` state was removed from the source). -/
inductive FormState
  | name | phone | username | extra_phone | brand_model
  | exterior | interior | package | budget | year | wishes
deriving DecidableEq

/-- The aiogram `FSMContext` of one user: current state plus the
accumulated `update_data` dictionary. -/
structure Session where
  st : FormState
  answers : List (String × String)
deriving DecidableEq

/-- `state.update_data(key=val)`: replace an existing binding or append a
new one. -/
def update_data (key val : String) : List (String × String) → List (String × String)
  | [] => [(key, val)]
  | (k, v) :: rest =>
    if k = key then (key, val) :: rest else (k, v) :: update_data key val rest

/-- Python `data.get(key, dflt)`. -/
def getData (key dflt : String) (d : List (String × String)) : String :=
  match d.find? (fun kv => kv.1 = key) with
  | some kv => kv.2
  | none => dflt

/-- Outbound side effects of a handler, in emission order.
`reply` is `message.reply`, `answer` is `message.answer` (and
`bot.send_message` to the invoking user), `send` is `bot.send_message` to
another chat, `cbAnswer` is `CallbackQuery.answer`, `editText` and
`editReplyMarkup` edit the triggering message, `logWarn` is a
`logger.warning` call. -/
inductive Out
  | reply (text : String)
  | answer (text : String)
  | send (chat : Int) (text : String)
  | cbAnswer (text : Option String)
  | editText (text : String)
  | editReplyMarkup
  | logWarn (msg : String)
deriving DecidableEq

/-! ## Form handlers -/

/-- Embedding of `process_name` (handler for `Form.name`).  The argument
is `message.text` (`none` for a non-text message). -/
def process_name (text? : Option String) (s : Session) : Session × List Out :=
  let text := pyStrip (text?.getD "")
  if text = "" then
    (s, [Out.reply "❌ Пожалуйста, введите ФИО кириллицей (например: Иванов Иван Иванович)."])
  else if nameReMatch text = false then
    (s, [Out.reply "❌ ФИО должно содержать только кириллицу, пробелы и дефис. Пожалуйста, попробуйте ещё раз."])
  else if (pySplit text).length < 2 then
    (s, [Out.reply "❌ Пожалуйста, введите минимум фамилию и имя (например: Иванов Иван)."])
  else
    ({ st := FormState.phone, answers := update_data "name" text s.answers },
     [Out.answer "☎️ Укажите номер телефона"])

/-- Embedding of `process_phone` (handler for `Form.phone`).
`contact?` is `message.contact.phone_number` when a structured contact was
shared, `text?` is `message.text`. -/
def process_phone (auto8 : Bool) (contact? text? : Option String) (s : Session) :
    Session × List Out :=
  let phone_raw := match contact? with
    | some c => c
    | none => text?.getD ""
  let phone := normalize_phone auto8 (some phone_raw)
  if phone ≠ "-" ∧ phoneReMatch phone = false then
    (s, [Out.reply "❌ Неверный формат номера. Введите в формате +7... или используйте кнопку Отправить номер."])
  else
    ({ st := FormState.username, answers := update_data "phone" phone s.answers },
     [Out.answer "👤 Ваш Telegram username"])

/-- Embedding of the `use_my_username` callback handler.  `handle?` is
`cb.from_user.username` (`none` when the requester has no handle; the
empty string is likewise falsy for Python `or`). -/
def use_my_username (handle? : Option String) (uid : Int) (s : Session) :
    Session × List Out :=
  let raw := match handle? with
    | none => "-"
    | some h => if h = "" then "-" else h
  let username := if raw = "-" then "-"
    else if headIs '@' raw.data = true then raw
    else "@" ++ raw
  ({ st := FormState.extra_phone, answers := update_data "username" username s.answers },
   [Out.cbAnswer none,
    Out.editText ("✅ Username выбран: " ++ username),
    Out.send uid "☎️ Дополнительный номер телефона (если есть)"])

/-- Embedding of `process_username` (typed-username handler for
`Form.username`). -/
def process_username (text? : Option String) (s : Session) : Session × List Out :=
  let text := pyStrip (text?.getD "")
  if text = "" then
    (s, [Out.reply "❌ Пожалуйста, введите username или нажмите кнопку Вставить мой username."])
  else
    let text := if text ≠ "-" ∧ headIs '@' text.data = false then "@" ++ text else text
    ({ st := FormState.extra_phone, answers := update_data "username" text s.answers },
     [Out.answer "☎️ Дополнительный номер телефона (если есть)"])

/-- Embedding of `process_extra_phone` (handler for `Form.extra_phone`). -/
def process_extra_phone (auto8 : Bool) (contact? text? : Option String) (s : Session) :
    Session × List Out :=
  let raw := match contact? with
    | some c => c
    | none => text?.getD ""
  if pyStrip raw = "-" then
    ({ st := FormState.brand_model, answers := update_data "extra_phone" "-" s.answers },
     [Out.answer "🚗 Какую марку автомобиля вы хотите заказать?"])
  else
    let extra := normalize_phone auto8 (some raw)
    if extra ≠ "-" ∧ phoneReMatch extra = false then
      (s, [Out.reply "❌ Неверный формат. Номер должен быть в формате +7 с 10-15 цифрами."])
    else
      ({ st := FormState.brand_model, answers := update_data "extra_phone" extra s.answers },
       [Out.answer "🚗 Какую марку автомобиля вы хотите заказать?"])

/-- Common shape of the free-text handlers `process_brand`,
`process_exterior`, `process_interior`, `process_package`,
`process_budget`, `process_year`: store `message.text or "-"` and
advance unconditionally. -/
def storeAndAdvance (field : String) (next : FormState) (prompt : String)
    (text? : Option String) (s : Session) : Session × List Out :=
  ({ st := next, answers := update_data field (orDash text?) s.answers },
   [Out.answer prompt])

/-- Embedding of `process_brand` (handler for `Form.brand_model`). -/
def process_brand : Option String → Session → Session × List Out :=
  storeAndAdvance "brand_model" FormState.exterior "🎨 Экстерьер"

/-- Embedding of `process_exterior` (handler for `Form.exterior`). -/
def process_exterior : Option String → Session → Session × List Out :=
  storeAndAdvance "exterior" FormState.interior "🛋 Интерьер"

/-- Embedding of `process_interior` (handler for `Form.interior`). -/
def process_interior : Option String → Session → Session × List Out :=
  storeAndAdvance "interior" FormState.package "📦 Комплектация/Пакет"

/-- Embedding of `process_package` (handler for `Form.package`). -/
def process_package : Option String → Session → Session × List Out :=
  storeAndAdvance "package" FormState.budget "💰 Ваш бюджет"

/-- Embedding of `process_budget` (handler for `Form.budget`). -/
def process_budget : Option String → Session → Session × List Out :=
  storeAndAdvance "budget" FormState.year "📅 Год выпуска"

/-- Embedding of `process_year` (handler for `Form.year`; the priority
question was removed, so it goes straight to the wishes prompt). -/
def process_year : Option String → Session → Session × List Out :=
  storeAndAdvance "year" FormState.wishes "✨ Пожелания и комментарии"

/-! ## Request repository (the sqlite `requests` table) -/

/-- One row of the `requests` table.  The `CREATE TABLE` defaults are
`priority TEXT DEFAULT 'без срочности'` and `status TEXT DEFAULT 'new'`;
`sheet_row` starts out NULL (`none`). -/
structure Request where
  id : Nat
  user_id : Int
  username : String
  name : String
  phones : String
  brand_model : String
  exterior : String
  interior : String
  package : String
  budget : String
  year : String
  priority : String
  wishes : String
  sheet_row : Option Nat
  status : String
deriving DecidableEq

/-- The database: the rows plus the AUTOINCREMENT counter (sqlite hands
out ids starting from 1). -/
structure DB where
  rows : List Request
  nextId : Nat
deriving DecidableEq

/-- The `INSERT INTO requests (...)` of `process_wishes`: the priority
column is intentionally omitted from the INSERT, so the rows get the
table defaults for `priority`, `sheet_row` and `status`.  Returns the new
database together with `cursor.lastrowid`. -/
def dbInsert (db : DB) (user_id : Int)
    (username name phones brand_model exterior interior package budget year wishes : String) :
    DB × Nat :=
  let rid := db.nextId
  ({ rows := db.rows ++
      [{ id := rid, user_id := user_id, username := username, name := name,
         phones := phones, brand_model := brand_model, exterior := exterior,
         interior := interior, package := package, budget := budget, year := year,
         priority := "без срочности", wishes := wishes, sheet_row := none,
         status := "new" }],
     nextId := rid + 1 }, rid)

/-- `UPDATE requests SET sheet_row = ? WHERE id = ?`. -/
def dbSetSheetRow (db : DB) (rid : Nat) (r : Nat) : DB :=
  { db with rows := db.rows.map (fun q => if q.id = rid then { q with sheet_row := some r } else q) }

/-- `UPDATE requests SET status = ? WHERE id = ?`. -/
def dbUpdateStatus (db : DB) (rid : Nat) (st : String) : DB :=
  { db with rows := db.rows.map (fun q => if q.id = rid then { q with status := st } else q) }

/-- `DELETE FROM requests WHERE id = ?`. -/
def dbDelete (db : DB) (rid : Nat) : DB :=
  { db with rows := db.rows.filter (fun q => decide (q.id ≠ rid)) }

/-! ## Spreadsheet mirror (`append_to_sheet`) -/

/-- Embedding of `append_to_sheet`.  The three failure sources of the
source function are parametrised: `creds_available` is the
`bool(GOOGLE_CREDS_JSON_PATH or GOOGLE_CREDS_JSON_CONTENT)` check,
`client_ok` is whether `get_gspread_client()` produced a client, and
`appendResult` is the outcome of the gspread calls inside the `try`
(an exception becomes `Except.error`, which the source catches, logs and
turns into `None`; success yields `len(values)`, the last row index). -/
def append_to_sheet (creds_available client_ok : Bool) (appendResult : Except String Nat) :
    Option Nat :=
  if creds_available = false then none
  else if client_ok = false then none
  else
    match appendResult with
    | Except.error _ => none
    | Except.ok last => some last

/-! ## Form completion (`process_wishes`) and the operator fan-out -/

/-- The per-admin notification loop at the end of `process_wishes`: each
send is wrapped in its own `try`/`except` which logs a warning and
continues, so the loop yields one effect per admin. -/
def notifyAdmins (admins : List Int) (sendFails : Int → Bool) (text : String) : List Out :=
  admins.map (fun a =>
    if sendFails a then Out.logWarn ("Failed to send request to admin " ++ toString a)
    else Out.send a text)

/-- `update_data(wishes=message.text or "-")` followed by
`state.get_data()`: the answer dictionary at completion time. -/
def wishesData (text? : Option String) (s : Session) : List (String × String) :=
  update_data "wishes" (orDash text?) s.answers

/-- `phones_combined = f"({data.get('phone','-')}), ({data.get('extra_phone','-')})"`. -/
def phonesCombined (d : List (String × String)) : String :=
  "(" ++ getData "phone" "-" d ++ "), (" ++ getData "extra_phone" "-" d ++ ")"

/-- Embedding of `process_wishes` (handler for `Form.wishes`).

`insertRaises` is the outcome of the sqlite INSERT: the source does not
wrap it in `try`/`except`, so a raising insert aborts the handler right
there — the already-updated session survives and nothing after the insert
runs.  `mirror` is `append_to_sheet` applied to the sheet row, `ts` is
`tz_now_str()`, `sendFails` drives the admin fan-out.  The result is
(session after the handler — `none` once `state.clear()` ran —, the
database, the emitted effects). -/
def process_wishes (text? : Option String) (uid : Int) (s : Session)
    (insertRaises : Bool) (db : DB) (mirror : List String → Option Nat)
    (ts : String) (admins : List Int) (sendFails : Int → Bool) :
    Option Session × DB × List Out :=
  let data := wishesData text? s
  let s1 : Session := { s with answers := data }
  if insertRaises then (some s1, db, [])
  else
    let pc := phonesCombined data
    let ins := dbInsert db uid (getData "username" "-" data) (getData "name" "-" data) pc
      (getData "brand_model" "-" data) (getData "exterior" "-" data)
      (getData "interior" "-" data) (getData "package" "-" data)
      (getData "budget" "-" data) (getData "year" "-" data) (getData "wishes" "-" data)
    let request_id := ins.2
    let row := [ts, getData "name" "-" data, pc, getData "username" "-" data,
      getData "brand_model" "-" data, getData "exterior" "-" data,
      getData "interior" "-" data, getData "package" "-" data,
      getData "budget" "-" data, getData "year" "-" data, getData "wishes" "-" data]
    let sheet_row := mirror row
    let db2 := match sheet_row with
      | some r => dbSetSheetRow ins.1 request_id r
      | none => ins.1
    (none, db2,
     Out.answer "✅ Спасибо! Ваша заявка успешно отправлена 🎉" ::
       notifyAdmins admins sendFails ("🆕 Новая заявка #" ++ toString request_id))

/-! ## Admin callbacks and commands -/

/-- Embedding of the `take:` callback handler (`take_request`).  The
actor id and the `ADMINS` allow-list are in scope in the source handler
(via `cb.from_user.id` and the module global) but are never consulted:
the status update and the success acknowledgement happen for every
actor. -/
def take_request (admins : List Int) (actor : Int) (req_id : Nat) (db : DB) :
    DB × List Out :=
  (dbUpdateStatus db req_id "in_progress",
   [Out.cbAnswer (some "✅ Заявка взята в работу"), Out.editReplyMarkup])

/-- Embedding of the `delete:` callback handler (`delete_request`); like
`take_request` it performs no allow-list check. -/
def delete_request (admins : List Int) (actor : Int) (req_id : Nat) (db : DB) :
    DB × List Out :=
  (dbDelete db req_id,
   [Out.cbAnswer (some "✅ Заявка удалена"), Out.editText "(заявка удалена)"])

/-- Embedding of the `admin_msg:` callback handler (`admin_msg`): again
no allow-list check; it binds the operator FSM to the target user
(returned as the new `target_user` of `AdminState.waiting_admin_message`). -/
def admin_msg (admins : List Int) (actor : Int) (target_user : Int) :
    List Out × Option Int :=
  ([Out.cbAnswer none,
    Out.reply ("💬 Введите сообщение для пользователя " ++ toString target_user)],
   some target_user)

/-- Insertion step for `ORDER BY id DESC`. -/
def insertByIdDesc (r : Request) : List Request → List Request
  | [] => [r]
  | q :: rest => if q.id ≤ r.id then r :: q :: rest else q :: insertByIdDesc r rest

/-- `SELECT ... ORDER BY id DESC` as an insertion sort. -/
def sortByIdDesc : List Request → List Request
  | [] => []
  | r :: rest => insertByIdDesc r (sortByIdDesc rest)

/-- Embedding of the `/list_requests` command handler — the only
admin surface with an allow-list check (`if message.from_user.id not in
ADMINS`). -/
def list_requests (admins : List Int) (actor : Int) (db : DB) : List Out :=
  if actor ∈ admins then
    if db.rows.isEmpty then [Out.reply "📭 Нет заявок в базе"]
    else
      ((sortByIdDesc db.rows).take 50).map (fun r =>
        Out.reply ("#" ++ toString r.id ++ " " ++ r.name ++ " " ++ r.brand_model ++
          " " ++ r.phones ++ " " ++ r.status))
  else [Out.reply "❌ Только для администраторов"]

/-! ## Support relay (`catch_all_messages`) -/

/-- The support-broadcast text: `f"💬 Сообщение в поддержку\n\nОт:
{full_name} (@{username or 'нет username'})\n\n{text}"`, flattened to one
line. -/
def supportForwardText (fullName : String) (uname : Option String) (text : String) : String :=
  "💬 Сообщение в поддержку От: " ++ fullName ++ " (@" ++
    (match uname with
     | none => "нет username"
     | some u => if u = "" then "нет username" else u) ++ ") " ++ text

/-- Embedding of `catch_all_messages`.  `waiting` is
`SupportStateHolder.is_waiting(user_id)`; the returned `Bool` is the
membership flag after the handler (`remove` clears it on the support
path).  Each forward to an admin sits in its own `try`/`except` that logs
and continues. -/
def catch_all_messages (uid : Int) (waiting : Bool) (fullName : String)
    (uname : Option String) (text? : Option String) (admins : List Int)
    (sendFails : Int → Bool) : List Out × Bool :=
  let text := text?.getD ""
  if waiting then
    (admins.map (fun a =>
        if sendFails a then Out.logWarn ("Failed to forward support to admin " ++ toString a)
        else Out.send a (supportForwardText fullName uname text)) ++
      [Out.answer "✅ Спасибо! Ваше сообщение отправлено в поддержку. Мы с Вами свяжимся."],
     false)
  else
    ([Out.reply "👋 Пожалуйста, используйте кнопки меню для навигации."], waiting)

/-! ## Concrete fixtures used by witnesses and counterexamples -/

/-- A fresh database (sqlite AUTOINCREMENT starts at 1). -/
def emptyDB : DB := { rows := [], nextId := 1 }

/-- A database holding one freshly inserted request (id 1, status `new`). -/
def sampleReq : Request :=
  { id := 1, user_id := 500, username := "@ivan", name := "Иванов Иван",
    phones := "(+79991234567), (-)", brand_model := "BMW X5", exterior := "черный",
    interior := "бежевый", package := "standard", budget := "5-7M", year := "2021",
    priority := "без срочности", wishes := "-", sheet_row := none, status := "new" }

def sampleDB : DB := { rows := [sampleReq], nextId := 2 }

/-- A session sitting at the final (wishes) question with all earlier
answers collected. -/
def sWishes : Session :=
  { st := FormState.wishes,
    answers := [("name", "Иванов Иван"), ("phone", "+79991234567"),
      ("username", "@ivan"), ("extra_phone", "-"), ("brand_model", "BMW X5"),
      ("exterior", "черный"), ("interior", "бежевый"), ("package", "standard"),
      ("budget", "5-7M"), ("year", "2021")] }

/-- A session sitting at the primary-phone step. -/
def sPhone : Session := { st := FormState.phone, answers := [("name", "Иванов Иван")] }

/-- A session sitting at the username step. -/
def sUser : Session :=
  { st := FormState.username, answers := [("name", "Иванов Иван"), ("phone", "+79991234567")] }

/-- A mirror that always fails (every append attempt yields `None`). -/
def mirrorFailing : List String → Option Nat := fun _ => none

/-! ## Helper lemmas -/

theorem getData_update_same (k v d : String) (l : List (String × String)) :
    getData k d (update_data k v l) = v := by
  induction l with
  | nil => simp [update_data, getData, List.find?]
  | cons kv rest ih =>
    by_cases h : kv.1 = k
    · simp [update_data, h, getData, List.find?]
    · simpa [update_data, h, getData, List.find?] using ih

/-- An input whose trimmed form contains no digit characters normalizes
to the absent marker. -/
theorem normalize_phone_dash (auto8 : Bool) (raw : String)
    (hd : digitsOf (pyStrip raw) = []) : normalize_phone auto8 (some raw) = "-" := by
  by_cases h0 : raw = ""
  · simp [normalize_phone, h0]
  · by_cases hp : headIs '+' (pyStrip raw).data = true
    · simp [normalize_phone, h0, hp, hd]
    · simp [normalize_phone, h0, hp, hd]

theorem map_status_missing (rows : List Request) (rid : Nat) (st : String)
    (h : ∀ r ∈ rows, r.id ≠ rid) :
    rows.map (fun q => if q.id = rid then { q with status := st } else q) = rows := by
  induction rows with
  | nil => rfl
  | cons a rest ih =>
    simp only [List.map_cons]
    rw [if_neg (h a (List.mem_cons_self a rest)),
      ih (fun r hr => h r (List.mem_cons_of_mem a hr))]

theorem filter_ne_missing (rows : List Request) (rid : Nat)
    (h : ∀ r ∈ rows, r.id ≠ rid) :
    rows.filter (fun q => decide (q.id ≠ rid)) = rows := by
  induction rows with
  | nil => rfl
  | cons a rest ih =>
    rw [List.filter_cons_of_pos (by simpa using h a (List.mem_cons_self a rest)),
      ih (fun r hr => h r (List.mem_cons_of_mem a hr))]

/-- Every invalid name leaves the session untouched and emits a single
re-prompt reply. -/
theorem process_name_stuck (text? : Option String) (s : Session)
    (h : ¬ (pyStrip (text?.getD "") ≠ "" ∧ nameReMatch (pyStrip (text?.getD "")) = true ∧
      2 ≤ (pySplit (pyStrip (text?.getD ""))).length)) :
    (process_name text? s).1 = s ∧ ∃ m, (process_name text? s).2 = [Out.reply m] := by
  push_neg at h
  by_cases h0 : pyStrip (text?.getD "") = ""
  · exact ⟨by simp [process_name, h0],
      "❌ Пожалуйста, введите ФИО кириллицей (например: Иванов Иван Иванович).",
      by simp [process_name, h0]⟩
  · by_cases h1 : nameReMatch (pyStrip (text?.getD "")) = true
    · have h2 : (pySplit (pyStrip (text?.getD ""))).length < 2 := by
        have := h h0 h1
        omega
      exact ⟨by simp [process_name, h0, h1, h2],
        "❌ Пожалуйста, введите минимум фамилию и имя (например: Иванов Иван).",
        by simp [process_name, h0, h1, h2]⟩
    · have h1f : nameReMatch (pyStrip (text?.getD "")) = false := by
        simpa using h1
      exact ⟨by simp [process_name, h0, h1f],
        "❌ ФИО должно содержать только кириллицу, пробелы и дефис. Пожалуйста, попробуйте ещё раз.",
        by simp [process_name, h0, h1f]⟩

/-- An empty session at the name step. -/
def sName : Session := { st := FormState.name, answers := [] }

/-! ## Claims -/

/-- Claim C1, counterexample: the actor 222 is not in the allow-list
[111], yet its `take` callback flips the sample request from `new` to
`in_progress` and is acknowledged with the success message, not a
denial; its `delete` callback likewise removes the row.  The callback
handlers perform no allow-list check at all. -/
theorem c1_claim_counterexample :
    ¬ ((222 : Int) ∈ ([111] : List Int)) ∧
    (take_request [111] 222 1 sampleDB).1.rows.map Request.status = ["in_progress"] ∧
    (take_request [111] 222 1 sampleDB).2 =
      [Out.cbAnswer (some "✅ Заявка взята в работу"), Out.editReplyMarkup] ∧
    (delete_request [111] 222 1 sampleDB).1.rows = [] ∧
    (delete_request [111] 222 1 sampleDB).2 =
      [Out.cbAnswer (some "✅ Заявка удалена"), Out.editText "(заявка удалена)"] := by
  exact ⟨by decide, by decide, by decide, by decide, by decide⟩

/-- Claim C1, amended: only the `/list_requests` command is
authorization-gated.  The claim/take, delete and direct-message callback
handlers never consult the allow-list: a non-operator actor applies the
full state change and receives the success acknowledgement, exactly as an
operator would; `/list_requests` alone answers a non-operator with the
denial and touches nothing. -/
theorem c1_amended_thm (admins : List Int) (actor : Int) (rid : Nat) (target : Int)
    (db : DB) (h : actor ∉ admins) :
    take_request admins actor rid db =
      (dbUpdateStatus db rid "in_progress",
       [Out.cbAnswer (some "✅ Заявка взята в работу"), Out.editReplyMarkup]) ∧
    delete_request admins actor rid db =
      (dbDelete db rid,
       [Out.cbAnswer (some "✅ Заявка удалена"), Out.editText "(заявка удалена)"]) ∧
    admin_msg admins actor target =
      ([Out.cbAnswer none,
        Out.reply ("💬 Введите сообщение для пользователя " ++ toString target)],
       some target) ∧
    list_requests admins actor db = [Out.reply "❌ Только для администраторов"] := by
  exact ⟨rfl, rfl, rfl, by simp [list_requests, h]⟩

/-- Claim C1, witness for the amended theorem at actor 222 against the
allow-list [111]. -/
theorem c1_amended_witness :
    ¬ ((222 : Int) ∈ ([111] : List Int)) ∧
    (take_request [111] 222 1 sampleDB =
      (dbUpdateStatus sampleDB 1 "in_progress",
       [Out.cbAnswer (some "✅ Заявка взята в работу"), Out.editReplyMarkup]) ∧
     delete_request [111] 222 1 sampleDB =
      (dbDelete sampleDB 1,
       [Out.cbAnswer (some "✅ Заявка удалена"), Out.editText "(заявка удалена)"]) ∧
     admin_msg [111] 222 500 =
      ([Out.cbAnswer none,
        Out.reply ("💬 Введите сообщение для пользователя " ++ toString (500 : Int))],
       some 500) ∧
     list_requests [111] 222 sampleDB = [Out.reply "❌ Только для администраторов"]) :=
  ⟨by decide, c1_amended_thm [111] 222 1 500 sampleDB (by decide)⟩

/-- Claim C10: a `take` or `delete` on a request id that matches no row
leaves the repository exactly as it was, and the acknowledgements are the
same constant success messages sent for an existing request — there is no
not-found response and no error. -/
theorem c10_thm (admins : List Int) (actor : Int) (rid : Nat) (db : DB)
    (h : ∀ r ∈ db.rows, r.id ≠ rid) :
    (take_request admins actor rid db).1 = db ∧
    (take_request admins actor rid db).2 =
      [Out.cbAnswer (some "✅ Заявка взята в работу"), Out.editReplyMarkup] ∧
    (delete_request admins actor rid db).1 = db ∧
    (delete_request admins actor rid db).2 =
      [Out.cbAnswer (some "✅ Заявка удалена"), Out.editText "(заявка удалена)"] := by
  refine ⟨?_, rfl, ?_, rfl⟩
  · show dbUpdateStatus db rid "in_progress" = db
    unfold dbUpdateStatus
    rw [map_status_missing db.rows rid _ h]
  · show dbDelete db rid = db
    unfold dbDelete
    rw [filter_ne_missing db.rows rid h]

/-- Claim C10, witness: id 99 is absent from the sample database. -/
theorem c10_witness :
    (∀ r ∈ sampleDB.rows, r.id ≠ 99) ∧
    ((take_request [111] 111 99 sampleDB).1 = sampleDB ∧
     (take_request [111] 111 99 sampleDB).2 =
       [Out.cbAnswer (some "✅ Заявка взята в работу"), Out.editReplyMarkup] ∧
     (delete_request [111] 111 99 sampleDB).1 = sampleDB ∧
     (delete_request [111] 111 99 sampleDB).2 =
       [Out.cbAnswer (some "✅ Заявка удалена"), Out.editText "(заявка удалена)"]) :=
  ⟨by decide, c10_thm [111] 111 99 sampleDB (by decide)⟩

/-- Claim C2, counterexample: when the repository insert raises, the
handler aborts before `state.clear()`: the session survives (still at the
wishes step, with the wishes answer recorded), the database is untouched
and nothing is sent — the Session is not destroyed unconditionally. -/
theorem c2_claim_counterexample :
    (process_wishes (some "ничего") 500 sWishes true emptyDB mirrorFailing "ts" []
      (fun _ => false)).1 =
      some { st := FormState.wishes,
             answers := update_data "wishes" "ничего" sWishes.answers } ∧
    (process_wishes (some "ничего") 500 sWishes true emptyDB mirrorFailing "ts" []
      (fun _ => false)).2.1 = emptyDB ∧
    (process_wishes (some "ничего") 500 sWishes true emptyDB mirrorFailing "ts" []
      (fun _ => false)).2.2 = [] := by
  exact ⟨by decide, by decide, by decide⟩

/-- Claim C2, amended: after the wishes answer the Session is destroyed
on every non-raising run — whatever the mirror or the operator sends do —
but a raising repository insert propagates out of the handler before the
clear, leaving the user mid-form at the wishes step with the wishes
answer recorded and no message sent. -/
theorem c2_amended_thm (text? : Option String) (uid : Int) (s : Session) (db : DB)
    (mirror : List String → Option Nat) (ts : String) (admins : List Int)
    (sendFails : Int → Bool) :
    (process_wishes text? uid s false db mirror ts admins sendFails).1 = none ∧
    (process_wishes text? uid s true db mirror ts admins sendFails).1 =
      some { s with answers := update_data "wishes" (orDash text?) s.answers } ∧
    (process_wishes text? uid s true db mirror ts admins sendFails).2.1 = db ∧
    (process_wishes text? uid s true db mirror ts admins sendFails).2.2 = [] := by
  refine ⟨?_, rfl, rfl, rfl⟩
  simp only [process_wishes]
  cases mirror [ts, getData "name" "-" (wishesData text? s),
    phonesCombined (wishesData text? s), getData "username" "-" (wishesData text? s),
    getData "brand_model" "-" (wishesData text? s),
    getData "exterior" "-" (wishesData text? s),
    getData "interior" "-" (wishesData text? s),
    getData "package" "-" (wishesData text? s),
    getData "budget" "-" (wishesData text? s),
    getData "year" "-" (wishesData text? s),
    getData "wishes" "-" (wishesData text? s)] <;> rfl

/-- Claim C6: every failure mode of the spreadsheet call yields `none`
(no credentials, no client, a raised gspread exception), and a run of the
final handler whose mirror always fails still commits the repository row
(status `new`, `sheet_row` NULL), still sends the confirmation and still
clears the session — the mirror failure neither rolls back nor blocks
anything. -/
theorem c6_thm (text? : Option String) (uid : Int) (s : Session) (db : DB)
    (ts : String) (admins : List Int) (sendFails : Int → Bool)
    (mirror : List String → Option Nat) (hm : ∀ r, mirror r = none) :
    (∀ cok res, append_to_sheet false cok res = none) ∧
    (∀ res, append_to_sheet true false res = none) ∧
    (∀ e, append_to_sheet true true (Except.error e) = none) ∧
    (∃ req : Request,
      (process_wishes text? uid s false db mirror ts admins sendFails).2.1 =
        { rows := db.rows ++ [req], nextId := db.nextId + 1 } ∧
      req.sheet_row = none ∧ req.status = "new" ∧ req.id = db.nextId ∧
      req.user_id = uid) ∧
    Out.answer "✅ Спасибо! Ваша заявка успешно отправлена 🎉" ∈
      (process_wishes text? uid s false db mirror ts admins sendFails).2.2 ∧
    (process_wishes text? uid s false db mirror ts admins sendFails).1 = none := by
  refine ⟨fun cok res => rfl, fun res => rfl, fun e => rfl, ?_, ?_, rfl⟩
  · simp only [process_wishes, hm]
    exact ⟨_, rfl, rfl, rfl, rfl, rfl⟩
  · simp only [process_wishes, hm]
    exact List.mem_cons_self _ _

/-- Claim C6, witness: a concrete completed form run against the
always-failing mirror. -/
theorem c6_witness :
    (∀ r : List String, mirrorFailing r = none) ∧
    ((∃ req : Request,
      (process_wishes (some "нет") 500 sWishes false emptyDB mirrorFailing
        "2024-01-01" [7, 8] (fun _ => false)).2.1 =
        { rows := emptyDB.rows ++ [req], nextId := emptyDB.nextId + 1 } ∧
      req.sheet_row = none ∧ req.status = "new" ∧ req.id = emptyDB.nextId ∧
      req.user_id = 500) ∧
    Out.answer "✅ Спасибо! Ваша заявка успешно отправлена 🎉" ∈
      (process_wishes (some "нет") 500 sWishes false emptyDB mirrorFailing
        "2024-01-01" [7, 8] (fun _ => false)).2.2 ∧
    (process_wishes (some "нет") 500 sWishes false emptyDB mirrorFailing
      "2024-01-01" [7, 8] (fun _ => false)).1 = none) :=
  ⟨fun r => rfl,
   (c6_thm (some "нет") 500 sWishes emptyDB "2024-01-01" [7, 8] (fun _ => false)
     mirrorFailing (fun r => rfl)).2.2.2⟩

/-- Claim C7: in both operator fan-outs (new-request notification and
support broadcast) one effect is produced per configured operator —
no failure aborts the loop — and a given operator's delivery depends only
on its own send outcome: a non-failing operator always receives the
message, a failing one always yields a logged warning; the support flag
is still cleared. -/
theorem c7_thm (admins : List Int) (sendFails : Int → Bool) (msg : String)
    (uid : Int) (fullName : String) (uname : Option String) (text? : Option String)
    (a : Int) (ha : a ∈ admins) :
    (notifyAdmins admins sendFails msg).length = admins.length ∧
    (sendFails a = false → Out.send a msg ∈ notifyAdmins admins sendFails msg) ∧
    (sendFails a = true →
      Out.logWarn ("Failed to send request to admin " ++ toString a) ∈
        notifyAdmins admins sendFails msg) ∧
    (catch_all_messages uid true fullName uname text? admins sendFails).1.length =
      admins.length + 1 ∧
    (sendFails a = false →
      Out.send a (supportForwardText fullName uname (text?.getD "")) ∈
        (catch_all_messages uid true fullName uname text? admins sendFails).1) ∧
    (sendFails a = true →
      Out.logWarn ("Failed to forward support to admin " ++ toString a) ∈
        (catch_all_messages uid true fullName uname text? admins sendFails).1) ∧
    (catch_all_messages uid true fullName uname text? admins sendFails).2 = false := by
  refine ⟨by simp [notifyAdmins], ?_, ?_, by simp [catch_all_messages], ?_, ?_,
    by simp [catch_all_messages]⟩
  · intro hf
    exact List.mem_map.2 ⟨a, ha, by simp [hf]⟩
  · intro hf
    exact List.mem_map.2 ⟨a, ha, by simp [hf]⟩
  · intro hf
    simp only [catch_all_messages, if_pos]
    exact List.mem_append_left _ (List.mem_map.2 ⟨a, ha, by simp [hf]⟩)
  · intro hf
    simp only [catch_all_messages, if_pos]
    exact List.mem_append_left _ (List.mem_map.2 ⟨a, ha, by simp [hf]⟩)

/-- Claim C7, witness: three operators 1, 2, 3 of which exactly operator
2 fails — operators 1 and 3 still receive the notification, operator 2
yields a logged warning, and all three sends were attempted. -/
theorem c7_witness :
    ((3 : Int) ∈ ([1, 2, 3] : List Int)) ∧
    ((fun x : Int => x == 2) 3 = false) ∧
    ((fun x : Int => x == 2) 2 = true) ∧
    Out.send 3 "msg" ∈ notifyAdmins [1, 2, 3] (fun x => x == 2) "msg" ∧
    Out.send 1 "msg" ∈ notifyAdmins [1, 2, 3] (fun x => x == 2) "msg" ∧
    Out.logWarn ("Failed to send request to admin " ++ toString (2 : Int)) ∈
      notifyAdmins [1, 2, 3] (fun x => x == 2) "msg" ∧
    (notifyAdmins [1, 2, 3] (fun x => x == 2) "msg").length =
      ([1, 2, 3] : List Int).length :=
  ⟨by decide, by decide, by decide,
   (c7_thm [1, 2, 3] (fun x => x == 2) "msg" 0 "n" none none 3 (by decide)).2.1 (by decide),
   (c7_thm [1, 2, 3] (fun x => x == 2) "msg" 0 "n" none none 1 (by decide)).2.1 (by decide),
   (c7_thm [1, 2, 3] (fun x => x == 2) "msg" 0 "n" none none 2 (by decide)).2.2.1 (by decide),
   (c7_thm [1, 2, 3] (fun x => x == 2) "msg" 0 "n" none none 3 (by decide)).1⟩

/-- Claim C3, counterexample: the skip input "-" on the *primary* phone
step is accepted — `process_phone` only rejects when the normalized value
differs from "-" — so the explicit absent marker is stored as the primary
phone and the form advances to the username step, contradicting the claim
that every non-phone input is rejected there. -/
theorem c3_claim_counterexample :
    process_phone true none (some "-") sPhone =
      ({ st := FormState.username, answers := update_data "phone" "-" sPhone.answers },
       [Out.answer "👤 Ваш Telegram username"]) ∧
    getData "phone" "x" (process_phone true none (some "-") sPhone).1.answers = "-" ∧
    phoneReMatch "-" = false := by
  exact ⟨by decide, by decide, by decide⟩

/-- Claim C3, amended: any input whose trimmed form contains no digit
(this covers "-", "нет", "no", "none", "ничего" in any casing) stores the
absent marker "-" and advances — on the optional secondary phone as the
spec says, but equally on the *primary* phone step; inputs that normalize
to something other than "-" and fail the `+7` plus ten digits pattern are
rejected on both phone steps without a state change. -/
theorem c3_amended_thm (auto8 : Bool) (raw : String) (s s2 : Session) :
    (digitsOf (pyStrip raw) = [] →
      (process_phone auto8 none (some raw) s).1 =
        { st := FormState.username, answers := update_data "phone" "-" s.answers } ∧
      (process_extra_phone auto8 none (some raw) s2).1 =
        { st := FormState.brand_model,
          answers := update_data "extra_phone" "-" s2.answers }) ∧
    (normalize_phone auto8 (some raw) ≠ "-" →
      phoneReMatch (normalize_phone auto8 (some raw)) = false →
      (process_phone auto8 none (some raw) s).1 = s ∧
      (pyStrip raw ≠ "-" → (process_extra_phone auto8 none (some raw) s2).1 = s2)) := by
  constructor
  · intro hd
    have hn := normalize_phone_dash auto8 raw hd
    constructor
    · simp [process_phone, hn]
    · by_cases hs : pyStrip raw = "-"
      · simp [process_extra_phone, hs]
      · simp [process_extra_phone, hs, hn]
  · intro hn hm
    constructor
    · simp [process_phone, hn, hm]
    · intro hs
      simp [process_extra_phone, hs, hn, hm]

/-- Claim C3, witness: "нет" (digit-free) is stored as "-" on both phone
steps, and "12345" (digits, wrong shape) is rejected on both. -/
theorem c3_amended_witness :
    (digitsOf (pyStrip "нет") = []) ∧
    ((process_phone true none (some "нет") sPhone).1 =
        { st := FormState.username, answers := update_data "phone" "-" sPhone.answers } ∧
     (process_extra_phone true none (some "нет") sUser).1 =
        { st := FormState.brand_model,
          answers := update_data "extra_phone" "-" sUser.answers }) ∧
    (normalize_phone true (some "12345") ≠ "-") ∧
    (phoneReMatch (normalize_phone true (some "12345")) = false) ∧
    ((process_phone true none (some "12345") sPhone).1 = sPhone ∧
     (pyStrip "12345" ≠ "-" →
       (process_extra_phone true none (some "12345") sUser).1 = sUser)) :=
  ⟨by decide,
   (c3_amended_thm true "нет" sPhone sUser).1 (by decide),
   by decide, by decide,
   (c3_amended_thm true "12345" sPhone sUser).2 (by decide) (by decide)⟩

/-- Claim C4, counterexample: an empty answer at the brand/model step is
not rejected — the placeholder "-" is stored and the FSM advances to the
exterior step, with the next prompt (not a re-prompt) emitted. -/
theorem c4_claim_counterexample :
    process_brand (some "") { st := FormState.brand_model, answers := [] } =
      ({ st := FormState.exterior, answers := [("brand_model", "-")] },
       [Out.answer "🎨 Экстерьер"]) := by
  decide

/-- Claim C4, amended: every free-text step accepts every message and
advances unconditionally: a non-empty text is stored verbatim (no
trimming), while an empty or absent text is stored as the placeholder "-"
— there is no rejection and no re-prompt on any free-text step, wishes
included. -/
theorem c4_amended_thm (text? : Option String) (t : String) (s : Session)
    (h : t ≠ "") :
    process_brand text? s =
      ({ st := FormState.exterior,
         answers := update_data "brand_model" (orDash text?) s.answers },
       [Out.answer "🎨 Экстерьер"]) ∧
    process_exterior text? s =
      ({ st := FormState.interior,
         answers := update_data "exterior" (orDash text?) s.answers },
       [Out.answer "🛋 Интерьер"]) ∧
    process_interior text? s =
      ({ st := FormState.package,
         answers := update_data "interior" (orDash text?) s.answers },
       [Out.answer "📦 Комплектация/Пакет"]) ∧
    process_package text? s =
      ({ st := FormState.budget,
         answers := update_data "package" (orDash text?) s.answers },
       [Out.answer "💰 Ваш бюджет"]) ∧
    process_budget text? s =
      ({ st := FormState.year,
         answers := update_data "budget" (orDash text?) s.answers },
       [Out.answer "📅 Год выпуска"]) ∧
    process_year text? s =
      ({ st := FormState.wishes,
         answers := update_data "year" (orDash text?) s.answers },
       [Out.answer "✨ Пожелания и комментарии"]) ∧
    (process_brand (some t) s).1.answers = update_data "brand_model" t s.answers ∧
    getData "wishes" "-" (wishesData (some t) s) = t := by
  refine ⟨rfl, rfl, rfl, rfl, rfl, rfl, ?_, ?_⟩
  · simp [process_brand, storeAndAdvance, orDash, h]
  · simp [wishesData, orDash, h, getData_update_same]

/-- Claim C4, witness: the untrimmed answer " BMW X5 " is stored
verbatim, whitespace included. -/
theorem c4_amended_witness :
    (" BMW X5 " ≠ "") ∧
    ((process_brand (some " BMW X5 ") sName).1.answers =
        update_data "brand_model" " BMW X5 " sName.answers ∧
     getData "wishes" "-" (wishesData (some " BMW X5 ") sName) = " BMW X5 ") :=
  ⟨by decide,
   ⟨((c4_amended_thm (some " BMW X5 ") " BMW X5 " sName (by decide)).2.2.2.2.2.2).1,
    ((c4_amended_thm (some " BMW X5 ") " BMW X5 " sName (by decide)).2.2.2.2.2.2).2⟩⟩

/-- Claim C5, counterexample: pressing use-my-handle with no transport
handle does not fail and does not leave the state unchanged — "-" is
stored as the username, the session advances to the extra-phone step, the
callback is acknowledged silently (`cb.answer()` with no text, not an
alert) and the message is edited to report the choice as successful. -/
theorem c5_claim_counterexample :
    use_my_username none 500 sUser =
      ({ st := FormState.extra_phone,
         answers := update_data "username" "-" sUser.answers },
       [Out.cbAnswer none, Out.editText "✅ Username выбран: -",
        Out.send 500 "☎️ Дополнительный номер телефона (если есть)"]) := by
  decide

/-- Claim C5, amended: for a requester with no handle on the transport
(`username` is `None` or empty), the use-my-handle shortcut stores the
absent marker "-" as the username answer and advances the session to the
extra-phone step, announcing the choice with a silent acknowledgement and
an edit — no alert-level notice exists and the state does change. -/
theorem c5_amended_thm (uid : Int) (s : Session) (handle? : Option String)
    (h : handle? = none ∨ handle? = some "") :
    use_my_username handle? uid s =
      ({ st := FormState.extra_phone,
         answers := update_data "username" "-" s.answers },
       [Out.cbAnswer none, Out.editText "✅ Username выбран: -",
        Out.send uid "☎️ Дополнительный номер телефона (если есть)"]) := by
  rcases h with h | h <;> subst h <;> rfl

/-- Claim C5, witness: the shortcut at a handle-less requester. -/
theorem c5_amended_witness :
    ((none : Option String) = none ∨ (none : Option String) = some "") ∧
    use_my_username none 777 sPhone =
      ({ st := FormState.extra_phone,
         answers := update_data "username" "-" sPhone.answers },
       [Out.cbAnswer none, Out.editText "✅ Username выбран: -",
        Out.send 777 "☎️ Дополнительный номер телефона (если есть)"]) :=
  ⟨Or.inl rfl, c5_amended_thm 777 sPhone none (Or.inl rfl)⟩

/-- Claim C8, counterexample: the trunk rewrite is *not* applied to every
digit string starting with the trunk prefix — `normalize_phone` requires
at least 10 digits before rewriting, so "8123" (trunk-prefixed) stays
"+8123" instead of becoming "+7123" as the claimed rule demands. -/
theorem c8_claim_counterexample :
    headIs '8' (digitsOf (pyStrip "8123")) = true ∧
    normalize_phone true (some "8123") = "+8123" ∧
    normalize_phone true (some "8123") ≠ "+7123" := by
  exact ⟨by decide, by decide, by decide⟩

/-- Claim C8, amended: non-digits are stripped; a leading-plus input with
at least one digit becomes "+<digits>"; with the trunk-rewrite option
enabled a trunk-prefixed digit string is rewritten to "+7<rest>" *only
when it has at least 10 digits* (otherwise it stays "+<digits>"); the
spec examples hold; and any normalized result other than the absent
marker "-" that fails the fixed `+7` plus ten digits pattern is rejected
by both phone handlers. -/
theorem c8_amended_thm (auto8 : Bool) (p : String) (s s2 : Session) (h0 : p ≠ "") :
    normalize_phone true (some "89991234567") = "+79991234567" ∧
    normalize_phone true (some "+7 (999) 123-45-67") = "+79991234567" ∧
    (headIs '+' (pyStrip p).data = false →
      headIs '8' (digitsOf (pyStrip p)) = true → 10 ≤ (digitsOf (pyStrip p)).length →
      normalize_phone true (some p) = "+7" ++ String.mk ((digitsOf (pyStrip p)).drop 1)) ∧
    (headIs '+' (pyStrip p).data = true → digitsOf (pyStrip p) ≠ [] →
      normalize_phone auto8 (some p) = "+" ++ String.mk (digitsOf (pyStrip p))) ∧
    (normalize_phone auto8 (some p) ≠ "-" →
      phoneReMatch (normalize_phone auto8 (some p)) = false →
      (process_phone auto8 none (some p) s).1 = s ∧
      (pyStrip p ≠ "-" → (process_extra_phone auto8 none (some p) s2).1 = s2)) := by
  refine ⟨by decide, by decide, ?_, ?_, ?_⟩
  · intro hplus h8 hlen
    have hne : digitsOf (pyStrip p) ≠ [] := by
      intro hnil
      rw [hnil] at h8
      exact absurd h8 (by decide)
    simp [normalize_phone, h0, hplus, hne, h8, hlen]
  · intro hplus hne
    simp [normalize_phone, h0, hplus, hne]
  · intro hn hm
    refine ⟨by simp [process_phone, hn, hm], ?_⟩
    intro hs
    simp [process_extra_phone, hs, hn, hm]

/-- Claim C8, witness: a trunk-prefixed free-form number is rewritten,
and a leading-plus foreign number keeps its digits. -/
theorem c8_amended_witness :
    (("8 912 345-67-89" : String) ≠ "") ∧
    (headIs '+' (pyStrip "8 912 345-67-89").data = false) ∧
    (headIs '8' (digitsOf (pyStrip "8 912 345-67-89")) = true) ∧
    (10 ≤ (digitsOf (pyStrip "8 912 345-67-89")).length) ∧
    normalize_phone true (some "8 912 345-67-89") =
      "+7" ++ String.mk ((digitsOf (pyStrip "8 912 345-67-89")).drop 1) ∧
    (("+49 30 123456" : String) ≠ "") ∧
    (headIs '+' (pyStrip "+49 30 123456").data = true) ∧
    (digitsOf (pyStrip "+49 30 123456") ≠ []) ∧
    normalize_phone false (some "+49 30 123456") =
      "+" ++ String.mk (digitsOf (pyStrip "+49 30 123456")) :=
  ⟨by decide, by decide, by decide, by decide,
   (c8_amended_thm true "8 912 345-67-89" sPhone sUser (by decide)).2.2.1
     (by decide) (by decide) (by decide),
   by decide, by decide, by decide,
   (c8_amended_thm false "+49 30 123456" sPhone sUser (by decide)).2.2.2.1
     (by decide) (by decide)⟩

/-- Claim C9: the trimmed name is accepted exactly when it is non-empty,
matches the Cyrillic-plus-whitespace-plus-hyphen character class of
`NAME_RE`, and splits into at least two whitespace-separated tokens; any
invalid name leaves the session exactly as it was and emits a single
re-prompt reply, and a whole sequence of invalid submissions — any number
of them — still leaves the session unchanged with no partial answer. -/
theorem c9_thm (text? : Option String) (s : Session) (ts : List (Option String)) :
    ((pyStrip (text?.getD "") ≠ "" ∧ nameReMatch (pyStrip (text?.getD "")) = true ∧
        2 ≤ (pySplit (pyStrip (text?.getD ""))).length) →
      process_name text? s =
        ({ st := FormState.phone,
           answers := update_data "name" (pyStrip (text?.getD "")) s.answers },
         [Out.answer "☎️ Укажите номер телефона"])) ∧
    (¬ (pyStrip (text?.getD "") ≠ "" ∧ nameReMatch (pyStrip (text?.getD "")) = true ∧
        2 ≤ (pySplit (pyStrip (text?.getD ""))).length) →
      (process_name text? s).1 = s ∧ ∃ m, (process_name text? s).2 = [Out.reply m]) ∧
    ((∀ u ∈ ts, ¬ (pyStrip (u.getD "") ≠ "" ∧ nameReMatch (pyStrip (u.getD "")) = true ∧
        2 ≤ (pySplit (pyStrip (u.getD ""))).length)) →
      ts.foldl (fun t u => (process_name u t).1) s = s) := by
  refine ⟨?_, process_name_stuck text? s, ?_⟩
  · rintro ⟨h0, h1, h2⟩
    have h2l : ¬ ((pySplit (pyStrip (text?.getD ""))).length < 2) := by omega
    simp [process_name, h0, h1, h2l]
  · induction ts with
    | nil => intro _; rfl
    | cons u rest ih =>
      intro hall
      have hu := (process_name_stuck u s (hall u (List.mem_cons_self u rest))).1
      simp only [List.foldl_cons, hu]
      exact ih (fun v hv => hall v (List.mem_cons_of_mem u hv))

/-- Claim C9, witness: "Иванов Иван" is accepted and stored; submitting
the invalid names "Иванов123" (digits), "Ivanov Ivanov" (Latin script)
and "Иванов" (one token) in sequence leaves the session untouched. -/
theorem c9_witness :
    (pyStrip "Иванов Иван" ≠ "" ∧ nameReMatch (pyStrip "Иванов Иван") = true ∧
      2 ≤ (pySplit (pyStrip "Иванов Иван")).length) ∧
    process_name (some "Иванов Иван") sName =
      ({ st := FormState.phone,
         answers := update_data "name" (pyStrip "Иванов Иван") sName.answers },
       [Out.answer "☎️ Укажите номер телефона"]) ∧
    [some "Иванов123", some "Ivanov Ivanov", some "Иванов"].foldl
      (fun t u => (process_name u t).1) sName = sName :=
  ⟨by decide,
   (c9_thm (some "Иванов Иван") sName []).1 (by decide),
   (c9_thm (some "Иванов Иван") sName
     [some "Иванов123", some "Ivanov Ivanov", some "Иванов"]).2.2 (by decide)⟩

end Zabugorn
